import Mathlib

/-!
Verification of the escrow project lifecycle of `src/routes/escrow.js`
(project-gallery-backend).  The route handlers are shallowly embedded as pure
Lean functions on an explicit `World` state (project, transaction ledger,
worker reviews, worker card, in-app notifications).  Monetary values are whole
currency units modelled as `Int`; `Math.round(x)` on the exact rational value
is modelled as `⌊x + 1/2⌋` (JavaScript rounds half toward +∞), realised on
integer numerators by Euclidean division.
-/

namespace Escrow

/-- Lifecycle status enum of `escrowProjectSchema` in
`src/models/EscrowProject.js`. -/
inductive Status
  | offer_sent
  | accepted
  | rejected
  | pending_advance
  | in_progress
  | mid_level
  | completed
  | completed_released
  | cancelled
deriving DecidableEq, Repr

/-- One milestone subdocument (`milestoneSchema`). -/
structure Milestone where
  title : String
  description : String
  progressPercent : Int
  completedAt : Option Nat
deriving DecidableEq, Repr

/-- The `EscrowProject` document.  Dates are abstract `Nat` timestamps;
unset (`null`) fields are `none`.  User ids are `Nat`. -/
structure Project where
  clientId : Nat
  workerId : Nat
  chatWithUserId : Nat
  title : String
  description : String
  budget : Int
  deadline : Nat
  agreedBudget : Option Int
  agreedDeadline : Option Nat
  agreedTimeline : String
  lockedAt : Option Nat
  status : Status
  progressPercent : Int
  milestones : List Milestone
  advancePaidAt : Option Nat
  advanceAmount : Int
  finalPaidAt : Option Nat
  finalAmount : Int
  platformCommissionPercent : Int
  platformCommissionAmount : Int
  workerPayoutAmount : Int
  workerPayoutAt : Option Nat
  rating : Option Int
  review : String
  ratedAt : Option Nat
deriving DecidableEq, Repr

/-- Transaction types used by the escrow handlers
(`src/models/Transaction.js`). -/
inductive TxnType
  | advance_payment
  | final_payment
  | platform_commission
  | worker_payout
deriving DecidableEq, Repr

/-- One immutable ledger row (`Transaction.create`): a `none` `toUserId`
denotes funds held in escrow.  All rows the escrow handlers create have
status `completed`, so the status field is omitted. -/
structure Txn where
  type : TxnType
  amount : Int
  fromUserId : Option Nat
  toUserId : Option Nat
deriving DecidableEq, Repr

/-- The worker `UserCard` aggregate rating fields updated by the rate
handler. -/
structure Card where
  rating : ℚ
  ratingCount : Nat
deriving DecidableEq, Repr

/-- HTTP response of a handler: `ok p` is `res.json(formatProject(p))`,
`err c m` is `res.status(c).json(\x7b error: m \x7d)`. -/
inductive Resp
  | ok (p : Project)
  | err (code : Nat) (msg : String)
deriving DecidableEq, Repr

/-- The persistent state touched by the handlers of one escrow project: the project
document, the transaction ledger (append-only, appended at the tail), the
`WorkerReview` ratings stored for the worker of this project, the
`UserCard` of the worker (if any), and the in-app `Notification` records
`(userId, type)`. -/
structure World where
  project : Project
  txns : List Txn
  reviews : List Int
  card : Option Card
  notifs : List (Nat × String)
deriving DecidableEq, Repr

/-- The empty string (used for JS default-to-empty-string fallbacks). -/
def blank : String := ""

/-- JavaScript `String.prototype.trim()`: drop whitespace from both ends.
Modelled structurally over the character list so that concrete instances
reduce. -/
def jsTrim (s : String) : String :=
  ⟨((s.data.dropWhile Char.isWhitespace).reverse.dropWhile
      Char.isWhitespace).reverse⟩

/-- `Math.round(t * 0.1)` for an integer `t`, idealised over exact
rationals: `⌊t/10 + 1/2⌋ = ⌊(2t+10)/20⌋` (Int division is Euclidean). -/
def jsRound10 (t : Int) : Int := (2 * t + 10) / 20

/-- `Math.round(t * 0.9)`: `⌊9t/10 + 1/2⌋ = ⌊(18t+10)/20⌋`. -/
def jsRound90 (t : Int) : Int := (18 * t + 10) / 20

/-- `Math.round(t * (p / 100))`: `⌊tp/100 + 1/2⌋ = ⌊(2tp+100)/200⌋`. -/
def jsRoundPct (t p : Int) : Int := (2 * (t * p) + 100) / 200

/-- `project.agreedBudget || project.budget` — JavaScript falsy fallback:
a `null` or `0` agreed budget falls back to the proposed budget. -/
def totalJs (p : Project) : Int :=
  match p.agreedBudget with
  | some a => if a = 0 then p.budget else a
  | none => p.budget

/-- `project.platformCommissionPercent || 5` — falsy fallback to 5. -/
def commissionPctJs (p : Project) : Int :=
  if p.platformCommissionPercent = 0 then 5 else p.platformCommissionPercent

/-- The 403 response every handler returns on an actor mismatch. -/
def notAuthorized : Resp := .err 403 "Not authorized"

/-- A notification write that fails does so by throwing inside the try
block of the route, so the handler answers 500; the state already
saved stays saved.  `notifFailed` stands for that 500 response. -/
def notifFailed : Resp := .err 500 "notification failed"

/-- Body of `POST /projects/:id/accept`. -/
structure AcceptBody where
  agreedBudget : Option Int
  agreedDeadline : Option Nat
  agreedTimeline : Option String
deriving DecidableEq, Repr

/-- `POST /projects/:id/accept` (worker accepts, locking terms).
`notifOk` tells whether the awaited `Notification.create` succeeds. -/
def accept (w : World) (actor : Nat) (b : AcceptBody) (now : Nat)
    (notifOk : Bool) : World × Resp :=
  let p := w.project
  if actor ≠ p.workerId then (w, notAuthorized)
  else if p.status ≠ .offer_sent then (w, .err 400 "Project already processed")
  else
    let p' := { p with
      agreedBudget := some (b.agreedBudget.getD p.budget)
      agreedDeadline := some (b.agreedDeadline.getD p.deadline)
      agreedTimeline := jsTrim (b.agreedTimeline.getD blank)
      lockedAt := some now
      status := .accepted }
    let w' := { w with project := p' }
    if notifOk then
      ({ w' with notifs := w'.notifs ++ [(p.clientId, "project_accepted")] }, .ok p')
    else (w', notifFailed)

/-- `POST /projects/:id/reject` (worker declines the offer). -/
def reject (w : World) (actor : Nat) (notifOk : Bool) : World × Resp :=
  let p := w.project
  if actor ≠ p.workerId then (w, notAuthorized)
  else if p.status ≠ .offer_sent then (w, .err 400 "Project already processed")
  else
    let p' := { p with status := .rejected }
    let w' := { w with project := p' }
    if notifOk then
      ({ w' with notifs := w'.notifs ++ [(p.clientId, "project_rejected")] }, .ok p')
    else (w', notifFailed)

/-- `POST /projects/:id/advance-payment` (client pays the 10% advance):
ledger row first, then the project save, then the notification. -/
def advancePayment (w : World) (actor : Nat) (now : Nat)
    (notifOk : Bool) : World × Resp :=
  let p := w.project
  if actor ≠ p.clientId then (w, notAuthorized)
  else if p.status ≠ .accepted ∧ p.status ≠ .pending_advance then
    (w, .err 400 "Invalid status for advance payment")
  else
    let total := totalJs p
    let advanceAmount := jsRound10 total
    let txn : Txn := ⟨.advance_payment, advanceAmount, some actor, none⟩
    let p' := { p with
      advanceAmount := advanceAmount
      advancePaidAt := some now
      status := .in_progress
      progressPercent := 50 }
    let w' := { w with project := p', txns := w.txns ++ [txn] }
    if notifOk then
      ({ w' with notifs := w'.notifs ++ [(p.workerId, "advance_paid")] }, .ok p')
    else (w', notifFailed)

/-- `PATCH /projects/:id/progress` (worker updates progress).  A present
`progressPercent` is clamped to 0–100; a present `milestones` array replaces
the stored one wholesale.  No notification is sent. -/
def progressUpdate (w : World) (actor : Nat) (progressPercent : Option Int)
    (milestones : Option (List Milestone)) : World × Resp :=
  let p := w.project
  if actor ≠ p.workerId then (w, notAuthorized)
  else
    let p1 := match progressPercent with
      | some v => { p with progressPercent := min 100 (max 0 v) }
      | none => p
    let p2 := match milestones with
      | some ms => { p1 with milestones := ms }
      | none => p1
    ({ w with project := p2 }, .ok p2)

/-- `POST /projects/:id/complete` (worker marks the project completed). -/
def complete (w : World) (actor : Nat) (notifOk : Bool) : World × Resp :=
  let p := w.project
  if actor ≠ p.workerId then (w, notAuthorized)
  else if p.status ≠ .in_progress ∧ p.status ≠ .mid_level then
    (w, .err 400 "Invalid status to complete")
  else
    let p' := { p with status := .completed, progressPercent := 100 }
    let w' := { w with project := p' }
    if notifOk then
      ({ w' with notifs := w'.notifs ++ [(p.clientId, "final_payment_required")] }, .ok p')
    else (w', notifFailed)

/-- `POST /projects/:id/final-payment` (client pays the 90% final amount):
ledger row, then the project save (status is NOT changed), then the
notification. -/
def finalPayment (w : World) (actor : Nat) (now : Nat)
    (notifOk : Bool) : World × Resp :=
  let p := w.project
  if actor ≠ p.clientId then (w, notAuthorized)
  else if p.status ≠ .completed then (w, .err 400 "Project not completed yet")
  else
    let total := totalJs p
    let finalAmount := jsRound90 total
    let txn : Txn := ⟨.final_payment, finalAmount, some actor, none⟩
    let p' := { p with finalAmount := finalAmount, finalPaidAt := some now }
    let w' := { w with project := p', txns := w.txns ++ [txn] }
    if notifOk then
      ({ w' with notifs := w'.notifs ++ [(p.workerId, "final_payment_required")] }, .ok p')
    else (w', notifFailed)

/-- `!rating || rating < 1 || rating > 5` of the rate handler: a missing or
falsy (`0`) rating, or one outside 1–5, is invalid. -/
def badRating : Option Int → Bool
  | none => true
  | some r => r == 0 || r < 1 || r > 5

/-- `POST /projects/:id/rate` (client rates, releasing payment): review row,
project save with commission/payout amounts and status `completed_released`,
two ledger rows, `UserCard` aggregate recomputed from the full review set,
then the notification. -/
def rate (w : World) (actor : Nat) (rating : Option Int) (review : Option String)
    (now : Nat) (notifOk : Bool) : World × Resp :=
  let p := w.project
  if actor ≠ p.clientId then (w, notAuthorized)
  else if p.status ≠ .completed ∨ p.finalPaidAt = none then
    (w, .err 400 "Rate only after final payment")
  else if badRating rating then (w, .err 400 "Rating 1-5 required")
  else
    let r := (rating.getD 0)
    let reviews' := w.reviews ++ [r]
    let total := totalJs p
    let pct := commissionPctJs p
    let commission := jsRoundPct total pct
    let payout := total - commission
    let p' := { p with
      rating := some r
      review := jsTrim (review.getD blank)
      ratedAt := some now
      platformCommissionAmount := commission
      workerPayoutAmount := payout
      workerPayoutAt := some now
      status := .completed_released }
    let txns' := w.txns ++
      [⟨.platform_commission, commission, none, none⟩,
       ⟨.worker_payout, payout, none, some p.workerId⟩]
    let card' := w.card.map fun _ =>
      { rating := if reviews'.length = 0 then 0
          else ((reviews'.sum : Int) : ℚ) / (reviews'.length : ℚ)
        ratingCount := reviews'.length }
    let w' := { w with project := p', txns := txns', reviews := reviews', card := card' }
    if notifOk then
      ({ w' with notifs := w'.notifs ++ [(p.workerId, "payment_released")] }, .ok p')
    else (w', notifFailed)

/-- Body of `POST /projects` (create offer).  A `workerId` of 0 models a
missing/falsy workerId, a `none` deadline a missing deadline. -/
structure OfferBody where
  workerId : Nat
  title : String
  description : Option String
  budget : Int
  deadline : Option Nat
deriving DecidableEq, Repr

/-- Outcome of create-offer: the created project document (if any — it is
created even when the subsequent notification write fails), the in-app
notifications written, counts of emails and pushes actually delivered, and
the HTTP response. -/
structure CreateOutcome where
  project : Option Project
  notifs : List (Nat × String)
  emailsSent : Nat
  pushesSent : Nat
  resp : Resp
deriving DecidableEq, Repr

/-- `POST /projects` (client sends an offer to a worker).  The email and
push sends are `.catch`-ed (their failure, `emailOk`/`pushOk` false, is only
logged); the awaited notification write is not. -/
def createOffer (actor : Nat) (b : OfferBody) (notifOk : Bool)
    (workerEmail : Option String) (emailOk pushOk : Bool) : CreateOutcome :=
  if b.workerId = 0 ∨ jsTrim b.title = blank ∨ b.budget = 0 ∨ b.budget ≤ 0 ∨
      b.deadline = none then
    ⟨none, [], 0, 0, .err 400 "workerId, title, budget, deadline required"⟩
  else
    let p : Project := {
      clientId := actor
      workerId := b.workerId
      chatWithUserId := b.workerId
      title := jsTrim b.title
      description := jsTrim (b.description.getD blank)
      budget := b.budget
      deadline := b.deadline.getD 0
      agreedBudget := none
      agreedDeadline := none
      agreedTimeline := blank
      lockedAt := none
      status := .offer_sent
      progressPercent := 0
      milestones := []
      advancePaidAt := none
      advanceAmount := 0
      finalPaidAt := none
      finalAmount := 0
      platformCommissionPercent := 5
      platformCommissionAmount := 0
      workerPayoutAmount := 0
      workerPayoutAt := none
      rating := none
      review := blank
      ratedAt := none }
    if notifOk then
      let emails := match workerEmail with
        | some _ => if emailOk then 1 else 0
        | none => 0
      let pushes := if pushOk then 1 else 0
      ⟨some p, [(b.workerId, "project_offer")], emails, pushes, .ok p⟩
    else
      ⟨some p, [], 0, 0, notifFailed⟩

/-- A sample project (client 1, worker 2) used to instantiate witnesses. -/
def baseProject : Project := {
  clientId := 1
  workerId := 2
  chatWithUserId := 2
  title := "Job"
  description := blank
  budget := 100
  deadline := 10
  agreedBudget := none
  agreedDeadline := none
  agreedTimeline := blank
  lockedAt := none
  status := .offer_sent
  progressPercent := 0
  milestones := []
  advancePaidAt := none
  advanceAmount := 0
  finalPaidAt := none
  finalAmount := 0
  platformCommissionPercent := 5
  platformCommissionAmount := 0
  workerPayoutAmount := 0
  workerPayoutAt := none
  rating := none
  review := blank
  ratedAt := none }

/-- A sample world around `baseProject` with an empty ledger and a blank
worker card. -/
def baseWorld : World := ⟨baseProject, [], [], some ⟨0, 0⟩, []⟩

/-- Sample world in status `accepted` (terms locked at 100). -/
def acceptedWorld : World :=
  { baseWorld with project :=
    { baseProject with status := .accepted, agreedBudget := some 100 } }

/-- Sample world in status `completed` with the final payment recorded. -/
def paidWorld : World :=
  { baseWorld with project :=
    { baseProject with
      status := .completed
      agreedBudget := some 100
      finalPaidAt := some 3
      progressPercent := 100 } }

/-- Splitting lemma: the rounded 10% share and the rounded 90% share of an
integer total sum back to the total except when the total is congruent to 5
modulo 10, where the two roundings overshoot by exactly one unit. -/
theorem jsRound_split (t : Int) :
    jsRound10 t + jsRound90 t = t + (if t % 10 = 5 then 1 else 0) := by
  have h : t % 10 = 0 ∨ t % 10 = 1 ∨ t % 10 = 2 ∨ t % 10 = 3 ∨ t % 10 = 4 ∨
      t % 10 = 5 ∨ t % 10 = 6 ∨ t % 10 = 7 ∨ t % 10 = 8 ∨ t % 10 = 9 := by
    omega
  unfold jsRound10 jsRound90
  rcases h with h | h | h | h | h | h | h | h | h | h <;> simp [h] <;> omega

/-- Claim C1 as written is refuted by a project whose locked `agreedBudget`
is 0 with proposed `budget` 5: the advance-payment handler computes from the
proposed budget (JavaScript `||` falsiness), setting `advanceAmount = 1`,
while `round((agreedBudget ?? budget) * 0.10) = round(0 * 0.10) = 0`. -/
theorem C1_counterexample :
    (advancePayment
        { baseWorld with project :=
          { baseProject with
            budget := 5
            agreedBudget := some 0
            status := .accepted } }
        1 0 true).1.project.advanceAmount = 1 ∧
    jsRound10 ((Option.some (0 : Int)).getD 5) = 0 ∧
    (advancePayment
        { baseWorld with project :=
          { baseProject with
            budget := 5
            agreedBudget := some 0
            status := .accepted } }
        1 0 true).1.project.advanceAmount
      ≠ jsRound10 ((Option.some (0 : Int)).getD 5) := by
  decide

/-- Claim C1 (amended): with `total = agreedBudget || budget` (JavaScript
falsy fallback, so a 0 or unset agreed budget falls back to the proposed
budget) and rounding `⌊x + 1/2⌋` (round half toward +∞, which agrees with
round-half-away-from-zero on nonnegative totals), the advance-payment
transition sets `advanceAmount = round(total * 0.10)`, the final-payment
transition sets `finalAmount = round(total * 0.90)`, and the rate transition
sets `platformCommissionAmount = round(total * (platformCommissionPercent /
100))` and `workerPayoutAmount = total - platformCommissionAmount`, so their
sum is exactly `total` and the project ends `completed_released`. -/
theorem C1_amended_money (w1 w2 w3 : World) (now : Nat) (r : Int)
    (rv : Option String)
    (h1 : w1.project.status = .accepted ∨ w1.project.status = .pending_advance)
    (h2 : w2.project.status = .completed)
    (h3s : w3.project.status = .completed)
    (h3f : w3.project.finalPaidAt ≠ none)
    (h3r : badRating (some r) = false) :
    (advancePayment w1 w1.project.clientId now true).1.project.advanceAmount
      = jsRound10 (totalJs w1.project) ∧
    (finalPayment w2 w2.project.clientId now true).1.project.finalAmount
      = jsRound90 (totalJs w2.project) ∧
    (rate w3 w3.project.clientId (some r) rv now true).1.project.platformCommissionAmount
      = jsRoundPct (totalJs w3.project) (commissionPctJs w3.project) ∧
    (rate w3 w3.project.clientId (some r) rv now true).1.project.workerPayoutAmount
      = totalJs w3.project
        - jsRoundPct (totalJs w3.project) (commissionPctJs w3.project) ∧
    (rate w3 w3.project.clientId (some r) rv now true).1.project.platformCommissionAmount
      + (rate w3 w3.project.clientId (some r) rv now true).1.project.workerPayoutAmount
      = totalJs w3.project ∧
    (rate w3 w3.project.clientId (some r) rv now true).1.project.status
      = .completed_released := by
  refine ⟨?_, ?_, ?_, ?_, ?_, ?_⟩ <;>
    first
      | (rcases h1 with h1 | h1 <;> simp [advancePayment, h1])
      | simp [finalPayment, h2]
      | (simp [rate, h3s, h3f, h3r]; try omega)

/-- Witness for `C1_amended_money` at concrete worlds. -/
theorem C1_amended_money_witness :
    (advancePayment acceptedWorld acceptedWorld.project.clientId 1 true).1.project.advanceAmount
      = jsRound10 (totalJs acceptedWorld.project) ∧
    (finalPayment paidWorld paidWorld.project.clientId 1 true).1.project.finalAmount
      = jsRound90 (totalJs paidWorld.project) ∧
    (rate paidWorld paidWorld.project.clientId (some 5) none 1 true).1.project.platformCommissionAmount
      = jsRoundPct (totalJs paidWorld.project) (commissionPctJs paidWorld.project) ∧
    (rate paidWorld paidWorld.project.clientId (some 5) none 1 true).1.project.workerPayoutAmount
      = totalJs paidWorld.project
        - jsRoundPct (totalJs paidWorld.project) (commissionPctJs paidWorld.project) ∧
    (rate paidWorld paidWorld.project.clientId (some 5) none 1 true).1.project.platformCommissionAmount
      + (rate paidWorld paidWorld.project.clientId (some 5) none 1 true).1.project.workerPayoutAmount
      = totalJs paidWorld.project ∧
    (rate paidWorld paidWorld.project.clientId (some 5) none 1 true).1.project.status
      = .completed_released :=
  C1_amended_money acceptedWorld paidWorld paidWorld 1 5 none
    (by decide) (by decide) (by decide) (by decide) (by decide)

/-- Sample world with a locked total of 5 (status `accepted`), on which the
two rounded escrow shares do not sum back to the total. -/
def fiveWorld : World :=
  { baseWorld with project :=
    { baseProject with
      budget := 5
      agreedBudget := some 5
      status := .accepted } }

/-- Claim C2 as written is refuted at total 5: running advance-payment,
complete and final-payment on a project whose locked total is 5 leaves
`advanceAmount + finalAmount = round(0.5) + round(4.5) = 1 + 5 = 6`, one
more than the total. -/
theorem C2_counterexample :
    (let wf := (finalPayment
        ((complete ((advancePayment fiveWorld 1 0 true).1) 2 true).1)
        1 2 true).1
     wf.project.advanceAmount + wf.project.finalAmount = 6 ∧
       totalJs fiveWorld.project = 5) ∧
    (6 : Int) ≠ 5 := by
  decide

/-- Claim C2 (amended): for every project taken through advance-payment,
complete and final-payment, `advanceAmount + finalAmount` equals the total
`agreedBudget || budget` exactly when the total is not congruent to 5 modulo
10; when it is, the sum exceeds the total by exactly 1 (both shares round
upward at the half). -/
theorem C2_amended_sum (w : World) (now now2 : Nat)
    (h : w.project.status = .accepted ∨ w.project.status = .pending_advance) :
    let wa := (advancePayment w w.project.clientId now true).1
    let wc := (complete wa w.project.workerId true).1
    let wf := (finalPayment wc w.project.clientId now2 true).1
    wf.project.advanceAmount + wf.project.finalAmount
      = totalJs w.project + (if totalJs w.project % 10 = 5 then 1 else 0) := by
  rcases h with h | h <;>
    simp [advancePayment, complete, finalPayment, totalJs, h, jsRound_split]

/-- Witness for `C2_amended_sum` on `acceptedWorld` (total 100). -/
theorem C2_amended_sum_witness :
    (let wa := (advancePayment acceptedWorld acceptedWorld.project.clientId 1 true).1
     let wc := (complete wa acceptedWorld.project.workerId true).1
     let wf := (finalPayment wc acceptedWorld.project.clientId 2 true).1
     wf.project.advanceAmount + wf.project.finalAmount
       = totalJs acceptedWorld.project
         + (if totalJs acceptedWorld.project % 10 = 5 then 1 else 0)) :=
  C2_amended_sum acceptedWorld 1 2 (Or.inl (by decide))

/-- Claim C3: on every one of the seven transitions, any authenticated
actor other than the required party — the counterparty included — receives
the 403 `notAuthorized` response, distinct from the 400 precondition
failures, and the whole state (project, ledger, reviews, card,
notifications) is unchanged.  The worker-guarded transitions (accept,
reject, progress, complete) turn away every actor other than the worker;
the client-guarded ones (advance-payment, final-payment, rate) every actor
other than the client. -/
theorem C3_actor_mismatch (w : World) (a : Nat) (b : AcceptBody)
    (pp : Option Int) (ms : Option (List Milestone)) (rating : Option Int)
    (rv : Option String) (now : Nat) (nOk : Bool) :
    (a ≠ w.project.workerId →
      accept w a b now nOk = (w, notAuthorized) ∧
      reject w a nOk = (w, notAuthorized) ∧
      progressUpdate w a pp ms = (w, notAuthorized) ∧
      complete w a nOk = (w, notAuthorized)) ∧
    (a ≠ w.project.clientId →
      advancePayment w a now nOk = (w, notAuthorized) ∧
      finalPayment w a now nOk = (w, notAuthorized) ∧
      rate w a rating rv now nOk = (w, notAuthorized)) ∧
    notAuthorized = Resp.err 403 "Not authorized" ∧
    (403 : Nat) ≠ 400 := by
  refine ⟨fun hw => ?_, fun hc => ?_, rfl, by decide⟩
  · simp [accept, reject, progressUpdate, complete, hw]
  · simp [advancePayment, finalPayment, rate, hc]

/-- Witness for `C3_actor_mismatch` at the counterparties of `baseWorld`
(client 1, worker 2): the client calling accept and the worker calling
final-payment are both turned away with no state change. -/
theorem C3_actor_mismatch_witness :
    accept baseWorld 1 ⟨none, none, none⟩ 0 true = (baseWorld, notAuthorized) ∧
    finalPayment baseWorld 2 0 true = (baseWorld, notAuthorized) :=
  ⟨((C3_actor_mismatch baseWorld 1 ⟨none, none, none⟩ none none none none 0
      true).1 (by decide)).1,
   (((C3_actor_mismatch baseWorld 2 ⟨none, none, none⟩ none none none none 0
      true).2.1) (by decide)).2.1⟩

/-- Claim C4: final-payment leaves the status at `completed`, so the client
can repeat it: each run succeeds, appends another `final_payment` ledger row
and overwrites `finalAmount` and `finalPaidAt` — no guard makes it
one-shot. -/
theorem C4_final_payment_repeatable (w : World) (now now2 : Nat)
    (h : w.project.status = .completed) :
    let o1 := finalPayment w w.project.clientId now true
    let o2 := finalPayment o1.1 w.project.clientId now2 true
    o1.1.project.status = .completed ∧
    o1.2 = .ok o1.1.project ∧
    o1.1.txns = w.txns ++
      [⟨.final_payment, jsRound90 (totalJs w.project), some w.project.clientId, none⟩] ∧
    o1.1.project.finalAmount = jsRound90 (totalJs w.project) ∧
    o1.1.project.finalPaidAt = some now ∧
    o2.2 = .ok o2.1.project ∧
    o2.1.project.status = .completed ∧
    o2.1.txns = o1.1.txns ++
      [⟨.final_payment, jsRound90 (totalJs w.project), some w.project.clientId, none⟩] ∧
    o2.1.project.finalAmount = jsRound90 (totalJs w.project) ∧
    o2.1.project.finalPaidAt = some now2 := by
  simp [finalPayment, totalJs, h]

/-- Witness for `C4_final_payment_repeatable` on `paidWorld`. -/
theorem C4_final_payment_repeatable_witness :
    (let o1 := finalPayment paidWorld paidWorld.project.clientId 4 true
     let o2 := finalPayment o1.1 paidWorld.project.clientId 5 true
     o1.1.project.status = .completed ∧
     o1.2 = .ok o1.1.project ∧
     o1.1.txns = paidWorld.txns ++
       [⟨.final_payment, jsRound90 (totalJs paidWorld.project),
         some paidWorld.project.clientId, none⟩] ∧
     o1.1.project.finalAmount = jsRound90 (totalJs paidWorld.project) ∧
     o1.1.project.finalPaidAt = some 4 ∧
     o2.2 = .ok o2.1.project ∧
     o2.1.project.status = .completed ∧
     o2.1.txns = o1.1.txns ++
       [⟨.final_payment, jsRound90 (totalJs paidWorld.project),
         some paidWorld.project.clientId, none⟩] ∧
     o2.1.project.finalAmount = jsRound90 (totalJs paidWorld.project) ∧
     o2.1.project.finalPaidAt = some 5) :=
  C4_final_payment_repeatable paidWorld 4 5 (by decide)

/-- Claim C5 as written is refuted by the accept transition with a failing
in-app notification write: the state change persists (status becomes
`accepted`) but the caller receives the 500 `notifFailed` response, not the
success response with the updated project. -/
theorem C5_counterexample :
    (let o := accept baseWorld 2 ⟨none, none, none⟩ 7 false
     o.1.project.status = .accepted ∧ o.2 = notifFailed ∧
       o.2 ≠ .ok o.1.project) := by
  decide

/-- Claim C5 (amended): the email and push sends of create-offer are
caught, so their failure never changes the response, the created project,
or the in-app notification records; but the awaited in-app notification
record write is not caught — when it fails after the state change, the
state change persists and the caller receives a 500 server error instead of
the success response. -/
theorem C5_amended_notifications (actor : Nat) (b : OfferBody) (nOk : Bool)
    (we : Option String) (eOk pOk : Bool) (w : World) (ab : AcceptBody)
    (now : Nat) (hs : w.project.status = .offer_sent) :
    ((createOffer actor b nOk we eOk pOk).resp
        = (createOffer actor b nOk we true true).resp ∧
      (createOffer actor b nOk we eOk pOk).project
        = (createOffer actor b nOk we true true).project ∧
      (createOffer actor b nOk we eOk pOk).notifs
        = (createOffer actor b nOk we true true).notifs) ∧
    (let o := accept w w.project.workerId ab now false
     o.1.project.status = .accepted ∧ o.2 = notifFailed) := by
  constructor
  · unfold createOffer
    split
    · simp
    · cases nOk <;> simp
  · simp [accept, hs]

/-- Witness for `C5_amended_notifications` with failing email and push
sends on a fresh offer and a failing notification write on accept. -/
theorem C5_amended_notifications_witness :
    ((createOffer 1 ⟨2, "Job", none, 100, some 1⟩ true none false false).resp
        = (createOffer 1 ⟨2, "Job", none, 100, some 1⟩ true none true true).resp ∧
      (createOffer 1 ⟨2, "Job", none, 100, some 1⟩ true none false false).project
        = (createOffer 1 ⟨2, "Job", none, 100, some 1⟩ true none true true).project ∧
      (createOffer 1 ⟨2, "Job", none, 100, some 1⟩ true none false false).notifs
        = (createOffer 1 ⟨2, "Job", none, 100, some 1⟩ true none true true).notifs) ∧
    (let o := accept baseWorld baseWorld.project.workerId ⟨none, none, none⟩ 7 false
     o.1.project.status = .accepted ∧ o.2 = notifFailed) :=
  C5_amended_notifications 1 ⟨2, "Job", none, 100, some 1⟩ true none false
    false baseWorld ⟨none, none, none⟩ 7 (by decide)

/-- Claim C6: when the rate command arrives against a project that is not
`completed`, or whose `finalPaidAt` is unset, or with a rating outside 1–5
(or missing), the whole state is unchanged — no `WorkerReview`, no ledger
row, no project mutation — and the response is one of the client errors
(403 on actor mismatch, otherwise 400). -/
theorem C6_rate_guarded (w : World) (a : Nat) (rating : Option Int)
    (rv : Option String) (now : Nat) (nOk : Bool)
    (h : w.project.status ≠ .completed ∨ w.project.finalPaidAt = none ∨
      badRating rating = true) :
    (rate w a rating rv now nOk).1 = w ∧
    ((rate w a rating rv now nOk).2 = notAuthorized ∨
      (rate w a rating rv now nOk).2 = .err 400 "Rate only after final payment" ∨
      (rate w a rating rv now nOk).2 = .err 400 "Rating 1-5 required") := by
  by_cases ha : a = w.project.clientId
  · by_cases hg : w.project.status ≠ .completed ∨ w.project.finalPaidAt = none
    · simp [rate, ha, hg]
    · have hb : badRating rating = true := by tauto
      simp [rate, ha, hg, hb]
  · simp [rate, ha]

/-- Witness for `C6_rate_guarded`: rating a project still in `offer_sent`
leaves the world unchanged and yields a client error. -/
theorem C6_rate_guarded_witness :
    (rate baseWorld 1 (some 3) none 9 true).1 = baseWorld ∧
    ((rate baseWorld 1 (some 3) none 9 true).2 = notAuthorized ∨
      (rate baseWorld 1 (some 3) none 9 true).2
        = .err 400 "Rate only after final payment" ∨
      (rate baseWorld 1 (some 3) none 9 true).2
        = .err 400 "Rating 1-5 required") :=
  C6_rate_guarded baseWorld 1 (some 3) none 9 true (by decide)

/-- Claim C7 as written is refuted: create-offer performs no distinctness
check between the caller and the named worker, so client 7 can send an
offer to themselves, producing a project whose `clientId` and `workerId`
are both 7. -/
theorem C7_counterexample :
    (let o := createOffer 7 ⟨7, "Job", none, 100, some 1⟩ true none true true
     o.project.map Project.clientId = some 7 ∧
       o.project.map Project.workerId = some 7 ∧
       o.project ≠ none ∧
       o.notifs = [(7, "project_offer")]) := by
  decide

/-- Claim C7 (amended): every created project references exactly one client
(the caller) and one worker (the workerId of the request body, also recorded
as `chatWithUserId`), but the two are not guaranteed distinct — create-offer
accepts a workerId equal to the callers own id. -/
theorem C7_amended_parties (actor : Nat) (b : OfferBody) (nOk : Bool)
    (we : Option String) (eOk pOk : Bool)
    (hv : ¬(b.workerId = 0 ∨ jsTrim b.title = blank ∨ b.budget = 0 ∨
      b.budget ≤ 0 ∨ b.deadline = none)) :
    (createOffer actor b nOk we eOk pOk).project.map Project.clientId
      = some actor ∧
    (createOffer actor b nOk we eOk pOk).project.map Project.workerId
      = some b.workerId ∧
    (createOffer actor b nOk we eOk pOk).project.map Project.chatWithUserId
      = some b.workerId := by
  unfold createOffer
  rw [if_neg hv]
  cases nOk <;> simp

/-- Witness for `C7_amended_parties` on a valid offer body. -/
theorem C7_amended_parties_witness :
    (createOffer 1 ⟨2, "Job", none, 100, some 1⟩ true none true true).project.map
        Project.clientId = some 1 ∧
    (createOffer 1 ⟨2, "Job", none, 100, some 1⟩ true none true true).project.map
        Project.workerId = some 2 ∧
    (createOffer 1 ⟨2, "Job", none, 100, some 1⟩ true none true true).project.map
        Project.chatWithUserId = some 2 :=
  C7_amended_parties 1 ⟨2, "Job", none, 100, some 1⟩ true none true true
    (by decide)

/-- Claim C8: a successful rate transition appends the new rating to the
stored review set and recomputes the worker card from that full set: the
displayed rating is the arithmetic mean of all stored ratings and
`ratingCount` is their number. -/
theorem C8_rating_mean (w : World) (r : Int) (rv : Option String) (now : Nat)
    (nOk : Bool) (c : Card) (hc : w.card = some c)
    (hs : w.project.status = .completed) (hf : w.project.finalPaidAt ≠ none)
    (hr : badRating (some r) = false) :
    (let w' := (rate w w.project.clientId (some r) rv now nOk).1
     w'.reviews = w.reviews ++ [r] ∧
     w'.card = some ⟨((w'.reviews.sum : Int) : ℚ) / (w'.reviews.length : ℚ),
       w'.reviews.length⟩) := by
  cases nOk <;> simp [rate, hs, hf, hr, hc]

/-- Witness for `C8_rating_mean`: the first review of 5 yields a card
rating of 5 with count 1. -/
theorem C8_rating_mean_witness :
    (let w' := (rate paidWorld paidWorld.project.clientId (some 5) none 9 true).1
     w'.reviews = paidWorld.reviews ++ [5] ∧
     w'.card = some ⟨((w'.reviews.sum : Int) : ℚ) / (w'.reviews.length : ℚ),
       w'.reviews.length⟩) :=
  C8_rating_mean paidWorld 5 none 9 true ⟨0, 0⟩ (by decide) (by decide)
    (by decide) (by decide)

/-- Claim C9: the progress-update transition of the worker is idempotent —
running it twice with the same payload produces exactly the same state and
response as running it once — with `progressPercent` clamped to 0–100 and
the milestones array replaced wholesale. -/
theorem C9_progress_idempotent (w : World) (pp : Option Int)
    (ms : Option (List Milestone)) :
    (let o1 := progressUpdate w w.project.workerId pp ms
     let o2 := progressUpdate o1.1 w.project.workerId pp ms
     o2 = o1 ∧
     o1.1.project.progressPercent =
       (match pp with
        | some v => min 100 (max 0 v)
        | none => w.project.progressPercent) ∧
     o1.1.project.milestones = ms.getD w.project.milestones) := by
  cases pp <;> cases ms <;> simp [progressUpdate]

/-- Sample world with a zero locked budget in status `accepted`. -/
def zeroAgreedAccepted : World :=
  { baseWorld with project :=
    { baseProject with agreedBudget := some 0, status := .accepted } }

/-- Sample world with a zero locked budget in status `completed`. -/
def zeroAgreedCompleted : World :=
  { baseWorld with project :=
    { baseProject with agreedBudget := some 0, status := .completed } }

/-- Sample world with a zero locked budget, completed and final-paid. -/
def zeroAgreedPaid : World :=
  { baseWorld with project :=
    { baseProject with
      agreedBudget := some 0
      status := .completed
      finalPaidAt := some 3 } }

/-- Claim C10: the money computations use the falsy fallback
`agreedBudget || budget`, so a project whose locked `agreedBudget` is 0 has
its advance, final, commission and payout amounts computed from the
originally proposed `budget`. -/
theorem C10_zero_agreed_budget (w1 w2 w3 : World) (now : Nat) (r : Int)
    (rv : Option String)
    (hz1 : w1.project.agreedBudget = some 0)
    (hs1 : w1.project.status = .accepted)
    (hz2 : w2.project.agreedBudget = some 0)
    (hs2 : w2.project.status = .completed)
    (hz3 : w3.project.agreedBudget = some 0)
    (hs3 : w3.project.status = .completed)
    (hf3 : w3.project.finalPaidAt ≠ none)
    (hr : badRating (some r) = false) :
    totalJs w1.project = w1.project.budget ∧
    (advancePayment w1 w1.project.clientId now true).1.project.advanceAmount
      = jsRound10 w1.project.budget ∧
    (finalPayment w2 w2.project.clientId now true).1.project.finalAmount
      = jsRound90 w2.project.budget ∧
    (rate w3 w3.project.clientId (some r) rv now true).1.project.platformCommissionAmount
      = jsRoundPct w3.project.budget (commissionPctJs w3.project) ∧
    (rate w3 w3.project.clientId (some r) rv now true).1.project.workerPayoutAmount
      = w3.project.budget
        - jsRoundPct w3.project.budget (commissionPctJs w3.project) := by
  refine ⟨?_, ?_, ?_, ?_, ?_⟩ <;>
    simp [totalJs, advancePayment, finalPayment, rate, hz1, hs1, hz2, hs2,
      hz3, hs3, hf3, hr]

/-- Witness for `C10_zero_agreed_budget` at the zero-agreed sample
worlds. -/
theorem C10_zero_agreed_budget_witness :
    totalJs zeroAgreedAccepted.project = zeroAgreedAccepted.project.budget ∧
    (advancePayment zeroAgreedAccepted zeroAgreedAccepted.project.clientId 1
        true).1.project.advanceAmount
      = jsRound10 zeroAgreedAccepted.project.budget ∧
    (finalPayment zeroAgreedCompleted zeroAgreedCompleted.project.clientId 1
        true).1.project.finalAmount
      = jsRound90 zeroAgreedCompleted.project.budget ∧
    (rate zeroAgreedPaid zeroAgreedPaid.project.clientId (some 4) none 1
        true).1.project.platformCommissionAmount
      = jsRoundPct zeroAgreedPaid.project.budget
          (commissionPctJs zeroAgreedPaid.project) ∧
    (rate zeroAgreedPaid zeroAgreedPaid.project.clientId (some 4) none 1
        true).1.project.workerPayoutAmount
      = zeroAgreedPaid.project.budget
        - jsRoundPct zeroAgreedPaid.project.budget
            (commissionPctJs zeroAgreedPaid.project) :=
  C10_zero_agreed_budget zeroAgreedAccepted zeroAgreedCompleted zeroAgreedPaid
    1 4 none (by decide) (by decide) (by decide) (by decide) (by decide)
    (by decide) (by decide) (by decide)

end Escrow
